import Mathlib

/-!
Verification of the data/materialization model of the hermes repository
(file src/datatypes/datatypes.py) as a shallow embedding in Lean 4.

Conventions of the embedding:
* Python float millisecond timestamps are modelled as rationals (the claims
  are about comparisons and truthiness, not floating-point rounding).
* Python exceptions are modelled with Except PyErr; attribute assignments
  performed before an exception is raised persist, so every effectful method
  returns the (possibly mutated) object and world alongside the result.
* File-system and media-library effects (tempfile.mkdtemp, AudioSegment
  slicing/export, PIL open/resize/save) are opaque services per the design
  document; they are modelled by a read-only environment Env saying which
  of them succeed, and a World recording the fresh-directory counter and the
  list of file writes performed, in order.
* Python dictionaries with literal entries are modelled as association lists;
  lookup takes the LAST binding of a key, matching insertion-overwrite
  semantics of dict literals and dict comprehensions.
-/

namespace Hermes

/-- Python truthiness of an optional string: None and the empty string are
falsy, every other string is truthy. -/
def pyTruthyStr : Option String → Bool
  | none => false
  | some s => s ≠ ""

/-- Python truthiness of an optional float (here: rational): None and 0.0 are
falsy, every other number is truthy. -/
def pyTruthyQ : Option ℚ → Bool
  | none => false
  | some q => q ≠ 0

/-- Exception classes an embedded call can report.  The constructors
mediaError and configError correspond to exception classes named by the
design document but not defined anywhere in the source; they are included so
that statements about those error types are expressible (no embedded
definition ever produces them). -/
inductive PyErr
  | typeError
  | keyError
  | indexError
  | exportError
  | imageError
  | imageSaveError
  | mediaError
  | configError
  deriving DecidableEq, Repr

/-- Lookup in a Python dict literal modelled as an association list: the last
binding of a key wins (dict insertion overwrites), absence means a KeyError
at the call site. -/
def pyDictGet {α β : Type} [DecidableEq α] (d : List (α × β)) (k : α) : Option β :=
  (d.reverse).lookup k

/-- MATCH_ERROR_MARGIN = 1.  The source comment reads "Second", but the value
is compared directly against differences of millisecond timestamps. -/
def MATCH_ERROR_MARGIN : ℚ := 1

/-- The QMultimedia.EncodingQuality values used as internal audio-quality
representation. -/
inductive QMQuality
  | VeryLowQuality
  | LowQuality
  | NormalQuality
  | HighQuality
  | VeryHighQuality
  deriving DecidableEq, Repr

/-- AUDIO_QUALITY: mapping of text-description to QMultimedia format. -/
def AUDIO_QUALITY : List (String × QMQuality) :=
  [("Very Low", .VeryLowQuality),
   ("Low", .LowQuality),
   ("Normal", .NormalQuality),
   ("High", .HighQuality),
   ("Very High", .VeryHighQuality)]

/-- AUDIO_QUALITY_REV: the dict comprehension swapping key and value of every
entry of AUDIO_QUALITY. -/
def AUDIO_QUALITY_REV : List (QMQuality × String) :=
  AUDIO_QUALITY.map (fun p => (p.2, p.1))

/-- OperationMode: ELAN = 0, SCRATCH = 1. -/
inductive OperationMode
  | ELAN
  | SCRATCH
  deriving DecidableEq, Repr

/-- OutputMode: OPIE = 0, LMF = 1, DICT = 2, in definition order. -/
inductive OutputMode
  | OPIE
  | LMF
  | DICT
  deriving DecidableEq, Repr

/-- list(OutputMode): the enum members in definition order. -/
def listOutputMode : List OutputMode := [.OPIE, .LMF, .DICT]

/-- OUTPUT_MODE_NAMES: mapping of mode numbers to full names. -/
def OUTPUT_MODE_NAMES : List (Nat × String) :=
  [(0, "OPIE File Structure"),
   (1, "Language Manifest File (JSON)"),
   (2, "Generic Dictionary (CSV)")]

/-- OUTPUT_MODES_REV: the dict comprehension swapping key and value of every
entry of OUTPUT_MODE_NAMES. -/
def OUTPUT_MODES_REV : List (String × Nat) :=
  OUTPUT_MODE_NAMES.map (fun p => (p.2, p.1))

/-- The language-manifest record returned by create_lmf. -/
structure LMF where
  transcription_language : String
  translation_language : String
  author : String
  created : String
  words : List String
  deriving DecidableEq, Repr

/-- create_lmf: returns a new dictionary representing an empty language
manifest.  The str(datetime.now()) timestamp is passed in as the extra
argument now. -/
def create_lmf (transcription_language : String) (translation_language : String)
    (author : String) (now : String) : LMF :=
  { transcription_language := transcription_language
    translation_language := translation_language
    author := author
    created := now
    words := [] }

/-- Opaque model of a pydub AudioSegment: either a decoded source track of a
given millisecond duration, or the result of millisecond slicing.  The design
document treats the audio library as an opaque service, so only the structure
of the value is modelled. -/
inductive Audio
  | track (len : ℚ)
  | slice (parent : Audio) (start stop : Option ℚ)
  deriving DecidableEq, Repr

/-- Millisecond length of an AudioSegment (its Python len, which also defines
its truthiness); slicing clamps the requested range to the parent. -/
def Audio.pyLen : Audio → ℚ
  | .track len => len
  | .slice parent start stop =>
      let pl := parent.pyLen
      max (min (stop.getD pl) pl - max (start.getD 0) 0) 0

/-- Python truthiness of an optional AudioSegment: None is falsy, a segment is
truthy iff its length is nonzero. -/
def pyTruthyAudio : Option Audio → Bool
  | none => false
  | some a => a.pyLen ≠ 0

/-- A uuid4() value, abstracted to a draw from an unbounded fresh supply. -/
structure UUID where
  val : Nat
  deriving DecidableEq, Repr

/-- str() of a UUID, as used in file names. -/
def uuidStr (u : UUID) : String := toString u.val

/-- Opaque model of a decoded PIL image: only its format attribute is ever
inspected by the source. -/
structure PILImage where
  format : String
  deriving DecidableEq, Repr

/-- Read-only environment describing which opaque external operations succeed
during a call: AudioSegment.export, PIL Image.open (including decode), and
PIL save.  openImage returns the decoded image for an openable path. -/
structure Env where
  exportOk : Bool
  openImage : String → Option PILImage
  saveOk : Bool

/-- resizeimage.resize_contain: returns a resized image; the pixel content is
opaque to this model. -/
def resize_contain (img : PILImage) (_size : List Nat) : PILImage := img

/-- PILImage.convert: returns a new image in the given mode (the source
discards its result). -/
def PILImage.convert (img : PILImage) (_mode : String) : PILImage := img

/-- Mutable world threaded through effectful calls: the number of
tempfile.mkdtemp calls made so far (each returns a fresh directory), and the
file paths written so far, in order. -/
structure World where
  mkdtempCount : Nat
  writes : List String
  deriving DecidableEq, Repr

/-- The fresh directory name returned by the n-th tempfile.mkdtemp call. -/
def mkdtempName (n : Nat) : String := "/tmp/tmp" ++ toString n

/-- Sample: representation of a media clip based on a media file split based
on ELAN data or recorded by the user. -/
structure Sample where
  index : Int
  start : Option ℚ
  «end» : Option ℚ
  recorded : Bool
  audio_file : Option Audio
  sample_path : Option String
  sample_object : Option Audio
  deriving DecidableEq, Repr

/-- Sample.__init__ with its default arguments filled in. -/
def Sample.construct (index : Int) (start : Option ℚ := none)
    («end» : Option ℚ := none) (audio_file : Option Audio := none)
    (sample_path : Option String := none) (sample_object : Option Audio := none) :
    Sample :=
  { index := index, start := start, «end» := «end», recorded := false
    audio_file := audio_file, sample_path := sample_path
    sample_object := sample_object }

/-- Sample.get_sample_file_path.  If sample_path is falsy: slices the audio
track (a TypeError if audio_file is None), stores the slice in sample_object,
makes a fresh temporary folder, sets sample_path to folder/index.wav, exports
the slice to that path (which may fail), and returns sample_path; otherwise
returns the cached sample_path.  Mutations made before a raise persist. -/
def Sample.get_sample_file_path (env : Env) (s : Sample) (w : World) :
    Except PyErr (Option String) × Sample × World :=
  if !(pyTruthyStr s.sample_path) then
    match s.audio_file with
    | none => (.error .typeError, s, w)
    | some af =>
        let sample_file := af.slice s.start s.«end»
        let s1 : Sample := { s with sample_object := some sample_file }
        let temporary_folder := mkdtempName w.mkdtempCount
        let w1 : World := { w with mkdtempCount := w.mkdtempCount + 1 }
        let path := temporary_folder ++ "/" ++ toString s1.index ++ ".wav"
        let s2 : Sample := { s1 with sample_path := some path }
        if env.exportOk then
          (.ok s2.sample_path, s2, { w1 with writes := w1.writes ++ [path] })
        else
          (.error .exportError, s2, w1)
  else
    (.ok s.sample_path, s, w)

/-- Translation: a translation parsed from an ELAN file; start and end are
always supplied by the parser. -/
structure Translation where
  index : Int
  translation : String
  start : ℚ
  «end» : ℚ
  deriving DecidableEq, Repr

/-- Transcription: the core data structure, storing the transcription,
translation, sample, and image references. -/
structure Transcription where
  index : Int
  transcription : String
  translation : Option String
  image : Option String
  preview_image : Option String
  id : UUID
  temp_file : Option String
  sample : Option Sample
  deriving DecidableEq, Repr

/-- Transcription.__init__.  The uuid4() draw is passed in as uuid.  The
source guards Sample creation by "if not (media and start and end)", i.e. by
Python truthiness of all three, and otherwise leaves sample as None. -/
def Transcription.construct (uuid : UUID) (index : Int) (transcription : String)
    (translation : Option String := none) (image : Option String := none)
    (start : Option ℚ := none) («end» : Option ℚ := none)
    (media : Option Audio := none) : Transcription :=
  { index := index
    transcription := transcription
    translation := translation
    image := image
    preview_image := none
    id := uuid
    temp_file := none
    sample :=
      if !(pyTruthyAudio media && pyTruthyQ start && pyTruthyQ «end») then
        none
      else
        some (Sample.construct index start «end» media) }

/-- Transcription.time_matches_translation.  Returns False when there is no
sample; otherwise compares both endpoint differences against
MATCH_ERROR_MARGIN with Python short-circuit "and" semantics: subtracting a
None endpoint raises TypeError, and the end endpoints are only touched when
the start comparison succeeded. -/
def Transcription.time_matches_translation (t : Transcription)
    (translation : Translation) : Except PyErr Bool :=
  match t.sample with
  | none => .ok false
  | some s =>
      match s.start with
      | none => .error .typeError
      | some ss =>
          if |ss - translation.start| < MATCH_ERROR_MARGIN then
            match s.«end» with
            | none => .error .typeError
            | some se => .ok (decide (|se - translation.«end»| < MATCH_ERROR_MARGIN))
          else
            .ok false

/-- Transcription.get_temp_file: lazily creates and caches the private
scratch directory. -/
def Transcription.get_temp_file (t : Transcription) (w : World) :
    String × Transcription × World :=
  if !(pyTruthyStr t.temp_file) then
    let name := mkdtempName w.mkdtempCount
    (name, { t with temp_file := some name },
     { w with mkdtempCount := w.mkdtempCount + 1 })
  else
    (t.temp_file.getD "", t, w)

/-- Python str.__add__ raises TypeError when the right operand is a
uuid.UUID (and uuid.UUID defines no __radd__), so evaluating
"self.get_temp_file() + self.id" always raises. -/
def strAddUUID (_s : String) (_u : UUID) : Except PyErr String :=
  .error .typeError

/-- Transcription.set_image: opens the image at the given path, computes
"self.get_temp_file() + self.id + .png" (a str + UUID concatenation), saves
the image there as PNG, and finally records the given path in self.image.
Left-to-right evaluation: the image is opened first, then get_temp_file runs
(possibly creating the scratch directory), then the concatenation is
attempted. -/
def Transcription.set_image (env : Env) (t : Transcription) (w : World)
    (path_to_image : String) : Except PyErr Unit × Transcription × World :=
  match env.openImage path_to_image with
  | none => (.error .imageError, t, w)
  | some _image =>
      match t.get_temp_file w with
      | (tmp, t1, w1) =>
          match strAddUUID tmp t1.id with
          | .error e => (.error e, t1, w1)
          | .ok base =>
              let new_image_path := base ++ ".png"
              if env.saveOk then
                (.ok (), { t1 with image := some path_to_image },
                 { w1 with writes := w1.writes ++ [new_image_path] })
              else
                (.error .imageSaveError, t1, w1)

/-- Transcription.refresh_preview_image: builds the preview path inside the
scratch directory (first creating it if needed), opens self.image (TypeError
if it is None, imageError if it cannot be opened or decoded), resizes to
250x250, and saves; self.preview_image is assigned only after the save, and
the result of the dead convert call on an image whose format reads "RBG" is
discarded exactly as in the source. -/
def Transcription.refresh_preview_image (env : Env) (t : Transcription)
    (w : World) : Except PyErr (Option String) × Transcription × World :=
  match t.get_temp_file w with
  | (tmp, t1, w1) =>
      let preview_path := tmp ++ "/" ++ uuidStr t1.id ++ ".png"
      match t1.image with
      | none => (.error .typeError, t1, w1)
      | some imgPath =>
          match env.openImage imgPath with
          | none => (.error .imageError, t1, w1)
          | some image =>
              let preview := resize_contain image [250, 250]
              let _dead :=
                if image.format == "RBG" then some (preview.convert "RGBA") else none
              if env.saveOk then
                (.ok (some preview_path),
                 { t1 with preview_image := some preview_path },
                 { w1 with writes := w1.writes ++ [preview_path] })
              else
                (.error .imageSaveError, t1, w1)

/-- Transcription.get_preview_image: refreshes the preview when an image is
set and no preview is cached, then returns the cached preview path; an
exception from the refresh propagates with its partial mutations. -/
def Transcription.get_preview_image (env : Env) (t : Transcription)
    (w : World) : Except PyErr (Option String) × Transcription × World :=
  if pyTruthyStr t.image && !(pyTruthyStr t.preview_image) then
    match t.refresh_preview_image env w with
    | (.error e, t1, w1) => (.error e, t1, w1)
    | (.ok _, t1, w1) => (.ok t1.preview_image, t1, w1)
  else
    (.ok t.preview_image, t, w)

/-- AppSettings: in-memory representation of the application settings. -/
structure AppSettings where
  output_format : OutputMode
  microphone : String
  audio_quality : QMQuality
  ffmpeg_location : Option String
  deriving DecidableEq, Repr

/-- AppSettings.__init__: resolves the output-format label through
OUTPUT_MODES_REV and indexes list(OutputMode) with the result, and resolves
the audio-quality label through AUDIO_QUALITY; a missing dict key raises
KeyError (the output-format lookup runs first). -/
def AppSettings.construct (output_format : String) (microphone : String)
    (audio_quality : String) (ffmpeg_location : Option String) :
    Except PyErr AppSettings :=
  match pyDictGet OUTPUT_MODES_REV output_format with
  | none => .error .keyError
  | some n =>
      match listOutputMode[n]? with
      | none => .error .indexError
      | some om =>
          match pyDictGet AUDIO_QUALITY audio_quality with
          | none => .error .keyError
          | some q =>
              .ok { output_format := om, microphone := microphone
                    audio_quality := q, ffmpeg_location := ffmpeg_location }

/-- AppSettings() with every default argument: output_format defaults to
OUTPUT_MODE_NAMES[0], microphone to "Default", audio_quality to "Normal",
ffmpeg_location to None. -/
def AppSettings.constructDefault : Except PyErr AppSettings :=
  AppSettings.construct ((pyDictGet OUTPUT_MODE_NAMES 0).getD "") "Default"
    "Normal" none

/-! Concrete inputs used by evaluation theorems and witnesses. -/

/-- An environment in which every external operation succeeds and every image
path opens to a PNG image. -/
def envOk : Env := ⟨true, fun _ => some ⟨"PNG"⟩, true⟩

/-- An environment in which the audio export write fails and everything else
succeeds. -/
def envNoExport : Env := ⟨false, fun _ => some ⟨"PNG"⟩, true⟩

/-- A fresh world: no mkdtemp calls made, no files written. -/
def w0 : World := ⟨0, []⟩

/-- A decoded source track of one minute. -/
def audio60 : Audio := .track 60000

/-- A transcription built from the spec scenario: index 3, sample window
2000 to 5000 milliseconds, backed by the shared track. -/
def c1t : Transcription :=
  Transcription.construct ⟨0⟩ 3 "t" none none (some 2000) (some 5000)
    (some audio60)

/-- The spec-scenario translation with window 2300 to 4900 milliseconds. -/
def c1tr : Translation := ⟨3, "tr", 2300, 4900⟩

/-- A non-blank sample with window 2000 to 5000 milliseconds, a backing
track, and no materialized path. -/
def sampleWin : Sample :=
  Sample.construct 3 (some 2000) (some 5000) (some audio60)

/-- A non-blank sample with a time window but no backing audio track. -/
def c6sample : Sample := Sample.construct 3 (some 2000) (some 5000) none

/-- A transcription constructed with all three of media, start, end supplied,
where start is 0 milliseconds. -/
def c7t : Transcription :=
  Transcription.construct ⟨0⟩ 3 "t" none none (some 0) (some 5000)
    (some audio60)

/-- A transcription with an image reference set. -/
def t7 : Transcription :=
  Transcription.construct ⟨7⟩ 3 "t" none (some "img.png")

/-- A plain transcription with no image. -/
def t8 : Transcription := Transcription.construct ⟨9⟩ 4 "u"

/-- The sample state after a first successful materialization of sampleWin. -/
def c2s1 : Sample := (sampleWin.get_sample_file_path envOk w0).2.1

/-- The world after a first successful materialization of sampleWin. -/
def c2w1 : World := (sampleWin.get_sample_file_path envOk w0).2.2

/-- The transcription state after a first successful preview build of t7. -/
def c2t1 : Transcription := (t7.get_preview_image envOk w0).2.1

/-- The world after a first successful preview build of t7. -/
def c2w1p : World := (t7.get_preview_image envOk w0).2.2

/-! Helper lemmas. -/

/-- A string with a nonempty right part is nonempty. -/
theorem append_ne_empty (a b : String) (hb : b ≠ "") : a ++ b ≠ "" := by
  intro h
  apply hb
  have hlen : (a ++ b).length = 0 := by rw [h]; rfl
  rw [String.length_append] at hlen
  have hb0 : b.length = 0 := by omega
  obtain ⟨data⟩ := b
  rw [String.length_mk, List.length_eq_zero] at hb0
  subst hb0
  rfl

/-- A string ending in a nonempty literal is truthy. -/
theorem truthy_append (a b : String) (hb : b ≠ "") :
    pyTruthyStr (some (a ++ b)) = true := by
  simp only [pyTruthyStr, decide_eq_true_eq]
  exact append_ne_empty a b hb

/-- A successful association-list lookup returns one of the stored values. -/
theorem lookup_mem_snd {α β : Type} [BEq α] (l : List (α × β)) (k : α) (v : β)
    (h : l.lookup k = some v) : v ∈ l.map Prod.snd := by
  induction l with
  | nil => simp [List.lookup] at h
  | cons p tl ih =>
      obtain ⟨a, b⟩ := p
      rw [List.lookup] at h
      by_cases hk : (k == a) = true
      · rw [hk] at h
        simp only [Option.some.injEq] at h
        subst h
        simp
      · have hk2 : (k == a) = false := by simpa using hk
        rw [hk2] at h
        simpa using Or.inr (ih h)

/-- Any mode number stored in OUTPUT_MODES_REV is below 3. -/
theorem output_rev_lt (ofmt : String) (n : Nat)
    (h : pyDictGet OUTPUT_MODES_REV ofmt = some n) : n < 3 := by
  have hm := lookup_mem_snd (OUTPUT_MODES_REV.reverse) ofmt n h
  have hl : (OUTPUT_MODES_REV.reverse).map Prod.snd = [2, 1, 0] := rfl
  rw [hl] at hm
  simp only [List.mem_cons, List.not_mem_nil, or_false] at hm
  rcases hm with h2 | h2 | h2 <;> omega

/-- get_temp_file never changes the image reference. -/
theorem get_temp_file_image (t : Transcription) (w : World) :
    ((t.get_temp_file w).2.1).image = t.image := by
  unfold Transcription.get_temp_file
  split <;> rfl

/-- get_temp_file never changes the cached preview path. -/
theorem get_temp_file_preview (t : Transcription) (w : World) :
    ((t.get_temp_file w).2.1).preview_image = t.preview_image := by
  unfold Transcription.get_temp_file
  split <;> rfl

/-- A successful get_sample_file_path call leaves a state whose cached path
is truthy and is the returned value, and calling again returns the same path
with no further mutation, no fresh directory and no further write. -/
theorem gsfp_idem (env : Env) (s : Sample) (w : World) (p : Option String)
    (s1 : Sample) (w1 : World)
    (h : s.get_sample_file_path env w = (.ok p, s1, w1)) :
    s1.get_sample_file_path env w1 = (.ok p, s1, w1) := by
  by_cases hb : pyTruthyStr s.sample_path = true
  · unfold Sample.get_sample_file_path at h
    simp only [hb, Bool.not_true, Bool.false_eq_true, if_false] at h
    simp only [Prod.mk.injEq] at h
    obtain ⟨hp, hs, hw⟩ := h
    subst hs; subst hw
    unfold Sample.get_sample_file_path
    simp only [hb, Bool.not_true, Bool.false_eq_true, if_false]
    rw [hp]
  · have hb2 : pyTruthyStr s.sample_path = false := by simpa using hb
    unfold Sample.get_sample_file_path at h
    simp only [hb2, Bool.not_false, if_true] at h
    cases haf : s.audio_file with
    | none => rw [haf] at h; simp at h
    | some af =>
        rw [haf] at h
        by_cases he : env.exportOk = true
        · simp only [he, if_true] at h
          simp only [Prod.mk.injEq] at h
          obtain ⟨hp, hs, hw⟩ := h
          subst hs; subst hw
          have htr : pyTruthyStr (some (mkdtempName w.mkdtempCount ++ "/" ++
              toString s.index ++ ".wav")) = true :=
            truthy_append _ ".wav" (by decide)
          unfold Sample.get_sample_file_path
          simp only [htr, Bool.not_true, Bool.false_eq_true, if_false]
          rw [hp]
        · simp [he] at h

/-- A get_sample_file_path call that raises TypeError (slicing a missing
audio track) leaves the sample and the world exactly as they were. -/
theorem gsfp_type_err (env : Env) (s : Sample) (w : World)
    (s1 : Sample) (w1 : World)
    (h : s.get_sample_file_path env w = (.error .typeError, s1, w1)) :
    s1 = s ∧ w1 = w := by
  by_cases hb : pyTruthyStr s.sample_path = true
  · unfold Sample.get_sample_file_path at h
    simp only [hb, Bool.not_true, Bool.false_eq_true, if_false] at h
    simp at h
  · have hb2 : pyTruthyStr s.sample_path = false := by simpa using hb
    unfold Sample.get_sample_file_path at h
    simp only [hb2, Bool.not_false, if_true] at h
    cases haf : s.audio_file with
    | none =>
        rw [haf] at h
        simp only [Prod.mk.injEq] at h
        exact ⟨h.2.1.symm, h.2.2.symm⟩
    | some af =>
        rw [haf] at h
        by_cases he : env.exportOk = true
        · simp [he] at h
        · simp [he] at h

/-- A get_sample_file_path call that fails at the export step nevertheless
leaves the cached path set: the sample was uncached before the call and its
sample_path is truthy afterwards. -/
theorem gsfp_export_err (env : Env) (s : Sample) (w : World)
    (s1 : Sample) (w1 : World)
    (h : s.get_sample_file_path env w = (.error .exportError, s1, w1)) :
    pyTruthyStr s.sample_path = false ∧ pyTruthyStr s1.sample_path = true := by
  by_cases hb : pyTruthyStr s.sample_path = true
  · unfold Sample.get_sample_file_path at h
    simp only [hb, Bool.not_true, Bool.false_eq_true, if_false] at h
    simp at h
  · have hb2 : pyTruthyStr s.sample_path = false := by simpa using hb
    refine ⟨hb2, ?_⟩
    unfold Sample.get_sample_file_path at h
    simp only [hb2, Bool.not_false, if_true] at h
    cases haf : s.audio_file with
    | none => rw [haf] at h; simp at h
    | some af =>
        rw [haf] at h
        by_cases he : env.exportOk = true
        · simp [he] at h
        · have he2 : env.exportOk = false := by simpa using he
          simp only [he2, Bool.false_eq_true, if_false] at h
          simp only [Prod.mk.injEq] at h
          obtain ⟨-, hs, -⟩ := h
          rw [← hs]
          exact truthy_append _ ".wav" (by decide)

/-- A successful refresh_preview_image call keeps the image reference, caches
a truthy preview path, and returns that cached path. -/
theorem refresh_ok_spec (env : Env) (t : Transcription) (w : World)
    (r : Option String) (t1 : Transcription) (w1 : World)
    (h : t.refresh_preview_image env w = (.ok r, t1, w1)) :
    t1.image = t.image ∧ pyTruthyStr t1.preview_image = true ∧
      r = t1.preview_image := by
  have hgi := get_temp_file_image t w
  unfold Transcription.refresh_preview_image at h
  rcases hgtf : t.get_temp_file w with ⟨tmp, t2, w2⟩
  rw [hgtf] at h hgi
  simp only [] at h hgi
  cases him : t2.image with
  | none => rw [him] at h; simp at h
  | some ip =>
      rw [him] at h
      simp only [] at h
      cases hoi : env.openImage ip with
      | none => rw [hoi] at h; simp at h
      | some img =>
          rw [hoi] at h
          simp only [] at h
          by_cases hsv : env.saveOk = true
          · simp only [hsv, if_true] at h
            simp only [Prod.mk.injEq] at h
            obtain ⟨hr, ht, hw⟩ := h
            subst ht; subst hw
            refine ⟨?_, truthy_append _ ".png" (by decide), ?_⟩
            · show some ip = t.image
              rw [← him]
              exact hgi
            · simp only [Except.ok.injEq] at hr
              exact hr.symm
          · simp [hsv] at h

/-- A failed refresh_preview_image call leaves the cached preview path and
the image reference exactly as they were. -/
theorem refresh_err_spec (env : Env) (t : Transcription) (w : World)
    (e : PyErr) (t1 : Transcription) (w1 : World)
    (h : t.refresh_preview_image env w = (.error e, t1, w1)) :
    t1.preview_image = t.preview_image ∧ t1.image = t.image := by
  have hgi := get_temp_file_image t w
  have hgp := get_temp_file_preview t w
  unfold Transcription.refresh_preview_image at h
  rcases hgtf : t.get_temp_file w with ⟨tmp, t2, w2⟩
  rw [hgtf] at h hgi hgp
  simp only [] at h hgi hgp
  cases him : t2.image with
  | none =>
      rw [him] at h
      simp only [] at h
      simp only [Prod.mk.injEq] at h
      obtain ⟨-, ht, -⟩ := h
      subst ht
      exact ⟨hgp, hgi⟩
  | some ip =>
      rw [him] at h
      simp only [] at h
      cases hoi : env.openImage ip with
      | none =>
          rw [hoi] at h
          simp only [] at h
          simp only [Prod.mk.injEq] at h
          obtain ⟨-, ht, -⟩ := h
          subst ht
          exact ⟨hgp, hgi⟩
      | some img =>
          rw [hoi] at h
          simp only [] at h
          by_cases hsv : env.saveOk = true
          · simp [hsv] at h
          · have hsv2 : env.saveOk = false := by simpa using hsv
            simp only [hsv2, Bool.false_eq_true, if_false] at h
            simp only [Prod.mk.injEq] at h
            obtain ⟨-, ht, -⟩ := h
            subst ht
            exact ⟨hgp, hgi⟩

/-- A successful get_preview_image call is idempotent: the second call
returns the same result with no further mutation and no further write. -/
theorem gpi_idem (env : Env) (t : Transcription) (w : World) (p : Option String)
    (t1 : Transcription) (w1 : World)
    (himg : pyTruthyStr t.image = true)
    (h : t.get_preview_image env w = (.ok p, t1, w1)) :
    t1.get_preview_image env w1 = (.ok p, t1, w1) := by
  by_cases hc : (pyTruthyStr t.image && !(pyTruthyStr t.preview_image)) = true
  · unfold Transcription.get_preview_image at h
    simp only [hc, if_true] at h
    rcases hr : t.refresh_preview_image env w with ⟨r, t2, w2⟩
    rw [hr] at h
    cases r with
    | error e => simp at h
    | ok v =>
        simp only [Prod.mk.injEq] at h
        obtain ⟨hp, ht, hw⟩ := h
        subst ht; subst hw
        obtain ⟨hgi, hpv, -⟩ := refresh_ok_spec env t w v t2 w2 hr
        unfold Transcription.get_preview_image
        simp only [hgi, himg, hpv, Bool.not_true, Bool.and_false,
          Bool.false_eq_true, if_false]
        rw [hp]
  · have hc2 : (pyTruthyStr t.image && !(pyTruthyStr t.preview_image)) = false := by
      simpa using hc
    unfold Transcription.get_preview_image at h
    simp only [hc2, Bool.false_eq_true, if_false] at h
    simp only [Prod.mk.injEq] at h
    obtain ⟨hp, ht, hw⟩ := h
    subst ht; subst hw
    unfold Transcription.get_preview_image
    simp only [hc2, Bool.false_eq_true, if_false]
    rw [hp]

/-! Claim theorems. -/

/-- Claim C1, evaluated at the failing input taken from the spec scenario:
the transcription has a sample with window 2000 to 5000 ms and the
translation window is 2300 to 4900 ms, so both endpoint differences (300 ms
and 100 ms) are strictly below 1000 ms and the claim requires a match; the
code returns false because MATCH_ERROR_MARGIN is 1 and is compared directly
against millisecond differences. -/
theorem claim_C1_eval :
    c1t.sample.isSome = true ∧
    c1t.time_matches_translation c1tr = .ok false ∧
    |(2000 : ℚ) - 2300| < 1000 ∧ |(5000 : ℚ) - 4900| < 1000 := by
  refine ⟨rfl, ?_, by norm_num, by norm_num⟩
  have hs : c1t.sample =
      some (Sample.construct 3 (some 2000) (some 5000) (some audio60)) := rfl
  simp only [Transcription.time_matches_translation, hs, Sample.construct]
  rw [if_neg]
  norm_num [MATCH_ERROR_MARGIN, c1tr]

/-- Claim C3: for every output-format label and every audio-quality label of
the closed sets, mapping through the forward table used by AppSettings and
back through the reverse table yields the original label, in both directions,
and all four tables have pairwise distinct keys and pairwise distinct values
(total bijections over the closed sets). -/
theorem claim_C3 :
    (AUDIO_QUALITY.all fun p => pyDictGet AUDIO_QUALITY_REV p.2 == some p.1) = true ∧
    (OUTPUT_MODES_REV.all fun p => pyDictGet OUTPUT_MODE_NAMES p.2 == some p.1) = true ∧
    (AUDIO_QUALITY_REV.all fun p => pyDictGet AUDIO_QUALITY p.2 == some p.1) = true ∧
    (OUTPUT_MODE_NAMES.all fun p => pyDictGet OUTPUT_MODES_REV p.2 == some p.1) = true ∧
    (AUDIO_QUALITY.map Prod.fst).Nodup ∧ (AUDIO_QUALITY.map Prod.snd).Nodup ∧
    (OUTPUT_MODE_NAMES.map Prod.fst).Nodup ∧ (OUTPUT_MODE_NAMES.map Prod.snd).Nodup := by
  refine ⟨rfl, rfl, rfl, rfl, ?_, ?_, ?_, ?_⟩ <;> decide

/-- Claim C5 as amended: constructing AppSettings with labels from the closed
sets succeeds and resolves them through the two maps into the internal
enumerated values; an unrecognized output-format label or audio-quality label
makes construction fail with a KeyError (the builtin dict lookup error), not
with a ConfigError type, which does not exist in the source. -/
theorem claim_C5 :
    (∀ (po : String × Nat) (pq : String × QMQuality) (mic : String)
        (ff : Option String), po ∈ OUTPUT_MODES_REV → pq ∈ AUDIO_QUALITY →
        AppSettings.construct po.1 mic pq.1 ff =
          .ok { output_format := listOutputMode.getD po.2 .OPIE
                microphone := mic, audio_quality := pq.2
                ffmpeg_location := ff }) ∧
    (∀ (ofmt mic aq : String) (ff : Option String),
        pyDictGet OUTPUT_MODES_REV ofmt = none →
        AppSettings.construct ofmt mic aq ff = .error .keyError) ∧
    (∀ (ofmt mic aq : String) (ff : Option String),
        pyDictGet AUDIO_QUALITY aq = none →
        AppSettings.construct ofmt mic aq ff = .error .keyError) := by
  refine ⟨?_, ?_, ?_⟩
  · intro po pq mic ff hpo hpq
    fin_cases hpo <;> fin_cases hpq <;> rfl
  · intro ofmt mic aq ff h1
    unfold AppSettings.construct
    rw [h1]
  · intro ofmt mic aq ff haq
    cases h1 : pyDictGet OUTPUT_MODES_REV ofmt with
    | none => simp [AppSettings.construct, h1]
    | some n =>
        have hn := output_rev_lt ofmt n h1
        interval_cases n <;> simp [AppSettings.construct, h1, haq, listOutputMode]

/-- Claim C5 counterexample: constructing AppSettings with the unrecognized
label "bogus" fails, but with KeyError rather than the claimed ConfigError
error type. -/
theorem claim_C5_counterexample :
    AppSettings.construct "bogus" "Default" "Normal" none = .error .keyError ∧
    PyErr.keyError ≠ PyErr.configError := ⟨rfl, by decide⟩

/-- Claim C5 witness: instantiates the amended claim at the label
"Generic Dictionary (CSV)" with quality "High", at an unrecognized
output-format label, and at an unrecognized audio-quality label. -/
theorem claim_C5_witness :
    AppSettings.construct "Generic Dictionary (CSV)" "Default" "High" none =
      .ok { output_format := listOutputMode.getD 2 .OPIE, microphone := "Default"
            audio_quality := .HighQuality, ffmpeg_location := none } ∧
    AppSettings.construct "bogus2" "Default" "Normal" none = .error .keyError ∧
    AppSettings.construct "OPIE File Structure" "Default" "bogus3" none =
      .error .keyError :=
  ⟨claim_C5.1 ("Generic Dictionary (CSV)", 2) ("High", .HighQuality) "Default"
      none (by decide) (by decide),
   claim_C5.2.1 "bogus2" "Default" "Normal" none rfl,
   claim_C5.2.2 "OPIE File Structure" "Default" "bogus3" none rfl⟩

/-- Claim C9: the manifest builder returns a record whose language and author
fields equal the arguments verbatim, whose words field is the empty ordered
sequence, which carries the supplied creation timestamp, and which depends on
nothing besides the arguments and the timestamp. -/
theorem claim_C9 :
    ∀ (tl trl author now : String),
      (create_lmf tl trl author now).transcription_language = tl ∧
      (create_lmf tl trl author now).translation_language = trl ∧
      (create_lmf tl trl author now).author = author ∧
      (create_lmf tl trl author now).words = [] ∧
      (create_lmf tl trl author now).created = now ∧
      ∀ now2, create_lmf tl trl author now2 =
        { create_lmf tl trl author now with created := now2 } :=
  fun _ _ _ _ => ⟨rfl, rfl, rfl, rfl, rfl, fun _ => rfl⟩

/-- Claim C10: AppSettings construction with every default argument succeeds
and yields the OPIE output mode (whose label, OUTPUT_MODE_NAMES at key 0, is
"OPIE File Structure"), microphone "Default", normal audio quality, and an
unset ffmpeg location. -/
theorem claim_C10 :
    AppSettings.constructDefault =
      .ok { output_format := .OPIE, microphone := "Default"
            audio_quality := .NormalQuality, ffmpeg_location := none } ∧
    (pyDictGet OUTPUT_MODE_NAMES 0).getD "" = "OPIE File Structure" :=
  ⟨rfl, rfl⟩

/-- Claim C2: calling get_sample_file_path twice on the same Sample, or
get_preview_image twice on the same Transcription with an image set, returns
the identical path both times, and the second call performs no mutation, no
fresh directory creation and no file write (the state and the world are
returned unchanged): the slice or resize operation runs only on the first
call. -/
theorem claim_C2 :
    (∀ (env : Env) (s : Sample) (w : World) (p : Option String)
        (s1 : Sample) (w1 : World),
        s.get_sample_file_path env w = (.ok p, s1, w1) →
        s1.get_sample_file_path env w1 = (.ok p, s1, w1)) ∧
    (∀ (env : Env) (t : Transcription) (w : World) (p : Option String)
        (t1 : Transcription) (w1 : World),
        pyTruthyStr t.image = true →
        t.get_preview_image env w = (.ok p, t1, w1) →
        t1.get_preview_image env w1 = (.ok p, t1, w1)) :=
  ⟨gsfp_idem, gpi_idem⟩

/-- Claim C2 witness: a first materialization of a fresh windowed sample
yields the clip path and a first preview build of an imaged transcription
yields the preview path; the second calls reproduce both results exactly. -/
theorem claim_C2_witness :
    c2s1.get_sample_file_path envOk c2w1 =
      (.ok (some "/tmp/tmp0/3.wav"), c2s1, c2w1) ∧
    c2t1.get_preview_image envOk c2w1p =
      (.ok (some "/tmp/tmp0/7.png"), c2t1, c2w1p) :=
  ⟨claim_C2.1 envOk sampleWin w0 (some "/tmp/tmp0/3.wav") c2s1 c2w1 rfl,
   claim_C2.2 envOk t7 w0 (some "/tmp/tmp0/7.png") c2t1 c2w1p rfl rfl⟩

/-- Claim C4 as amended: a failed refresh_preview_image call writes no cache
entry (preview_image is left exactly as it was); a get_sample_file_path call
that fails while slicing writes no cache entry either; but a
get_sample_file_path call that fails at the export write does leave a cache
entry: sample_path was falsy before the call and is truthy afterwards. -/
theorem claim_C4 :
    (∀ (env : Env) (t : Transcription) (w : World) (e : PyErr)
        (t1 : Transcription) (w1 : World),
        t.refresh_preview_image env w = (.error e, t1, w1) →
        t1.preview_image = t.preview_image) ∧
    (∀ (env : Env) (s : Sample) (w : World) (s1 : Sample) (w1 : World),
        s.get_sample_file_path env w = (.error .typeError, s1, w1) →
        s1.sample_path = s.sample_path) ∧
    (∀ (env : Env) (s : Sample) (w : World) (s1 : Sample) (w1 : World),
        s.get_sample_file_path env w = (.error .exportError, s1, w1) →
        pyTruthyStr s.sample_path = false ∧ pyTruthyStr s1.sample_path = true) :=
  ⟨fun env t w e t1 w1 h => (refresh_err_spec env t w e t1 w1 h).1,
   fun env s w s1 w1 h => by rw [(gsfp_type_err env s w s1 w1 h).1],
   fun env s w s1 w1 h => gsfp_export_err env s w s1 w1 h⟩

/-- Claim C4 counterexample: a fresh windowed sample whose export write
fails reports the failure, yet its sample_path cache has been populated by
the failed call, contradicting the claim that a failed materialization
writes no cache entry. -/
theorem claim_C4_counterexample :
    (sampleWin.get_sample_file_path envNoExport w0).1 = .error .exportError ∧
    sampleWin.sample_path = none ∧
    ((sampleWin.get_sample_file_path envNoExport w0).2.1).sample_path =
      some "/tmp/tmp0/3.wav" :=
  ⟨rfl, rfl, rfl⟩

/-- Claim C4 witness: instantiates the amended claim at a transcription with
no image (preview refresh raises TypeError and leaves no cache), at a sample
with no audio track (slicing raises TypeError and leaves no cache), and at a
sample whose export write fails (cache populated despite the failure). -/
theorem claim_C4_witness :
    ((t8.refresh_preview_image envOk w0).2.1).preview_image =
      t8.preview_image ∧
    ((c6sample.get_sample_file_path envOk w0).2.1).sample_path =
      c6sample.sample_path ∧
    (pyTruthyStr sampleWin.sample_path = false ∧
      pyTruthyStr ((sampleWin.get_sample_file_path envNoExport w0).2.1).sample_path
        = true) :=
  ⟨claim_C4.1 envOk t8 w0 .typeError _ _ rfl,
   claim_C4.2.1 envOk c6sample w0 _ _ rfl,
   claim_C4.2.2 envNoExport sampleWin w0 _ _ rfl⟩

/-- Claim C6 as amended: materializing a non-blank sample that has no cached
path and no backing audio track fails, but with the TypeError produced by
subscripting None, not with a MediaError type, which does not exist in the
source; the sample and the world are left unchanged. -/
theorem claim_C6 (env : Env) (s : Sample) (w : World)
    (hs : s.start.isSome = true) (he : s.«end».isSome = true)
    (hpath : pyTruthyStr s.sample_path = false)
    (haudio : s.audio_file = none) :
    s.get_sample_file_path env w = (.error .typeError, s, w) := by
  simp [Sample.get_sample_file_path, hpath, haudio]

/-- Claim C6 counterexample: a non-blank sample with no path and no audio
track fails with TypeError, which is not the claimed MediaError error type. -/
theorem claim_C6_counterexample :
    (c6sample.get_sample_file_path envOk w0).1 = .error .typeError ∧
    PyErr.typeError ≠ PyErr.mediaError := ⟨rfl, by decide⟩

/-- Claim C6 witness: instantiates the amended claim at a concrete non-blank
sample with a 2000 to 5000 ms window, no cached path and no audio track. -/
theorem claim_C6_witness :
    c6sample.get_sample_file_path envOk w0 = (.error .typeError, c6sample, w0) :=
  claim_C6 envOk c6sample w0 rfl rfl rfl rfl

/-- Claim C7 as amended: a Transcription owns a freshly created Sample with
exactly the given window and audio track iff media, start and end are all
given and Python-truthy; if any of the three is absent or falsy (in
particular when the given start or end is 0 milliseconds, or the media is
zero-length), the Transcription starts with no Sample. -/
theorem claim_C7 :
    (∀ (u : UUID) (i : Int) (tx : String) (tl im : Option String)
        (s e : Option ℚ) (m : Option Audio),
        pyTruthyAudio m = true → pyTruthyQ s = true → pyTruthyQ e = true →
        (Transcription.construct u i tx tl im s e m).sample =
          some (Sample.construct i s e m)) ∧
    (∀ (u : UUID) (i : Int) (tx : String) (tl im : Option String)
        (s e : Option ℚ) (m : Option Audio),
        (pyTruthyAudio m && pyTruthyQ s && pyTruthyQ e) = false →
        (Transcription.construct u i tx tl im s e m).sample = none) := by
  constructor
  · intro u i tx tl im s e m hm hs he
    simp [Transcription.construct, hm, hs, he]
  · intro u i tx tl im s e m hfalse
    simp [Transcription.construct, hfalse]

/-- Claim C7 counterexample: constructing a Transcription with media, start
and end all given, where the start of the window is 0 milliseconds, yields no
Sample at all, contradicting the claim that a Sample carrying the window is
created whenever all three are given. -/
theorem claim_C7_counterexample : c7t.sample = none := rfl

/-- Claim C7 witness: instantiates the amended claim at a nonzero window
(Sample created carrying exactly the window and track) and at a window whose
start is 0 (no Sample). -/
theorem claim_C7_witness :
    (Transcription.construct ⟨1⟩ 2 "x" none none (some 2000) (some 5000)
        (some audio60)).sample =
      some (Sample.construct 2 (some 2000) (some 5000) (some audio60)) ∧
    (Transcription.construct ⟨1⟩ 2 "x" none none (some 0) (some 5000)
        (some audio60)).sample = none :=
  ⟨claim_C7.1 ⟨1⟩ 2 "x" none none (some 2000) (some 5000) (some audio60)
      rfl rfl rfl,
   claim_C7.2 ⟨1⟩ 2 "x" none none (some 0) (some 5000) (some audio60) rfl⟩

/-- Claim C8, evaluated against the code: for every Transcription and every
openable image path, set_image always raises TypeError while computing
"get_temp_file() + id" (a str plus uuid.UUID concatenation), so it neither
saves the normalized copy nor records the given path: the image reference is
left exactly as it was. -/
theorem claim_C8 (env : Env) (t : Transcription) (w : World) (p : String)
    (himg : (env.openImage p).isSome = true) :
    (t.set_image env w p).1 = .error .typeError ∧
    ((t.set_image env w p).2.1).image = t.image := by
  obtain ⟨img, hop⟩ := Option.isSome_iff_exists.mp himg
  have hgi := get_temp_file_image t w
  rcases hgtf : t.get_temp_file w with ⟨tmp, t1, w1⟩
  rw [hgtf] at hgi
  simp only [] at hgi
  unfold Transcription.set_image
  rw [hop, hgtf]
  exact ⟨rfl, hgi⟩

/-- Claim C8 witness: a concrete set_image call on a plain transcription with
an openable path raises TypeError and leaves the image reference unchanged. -/
theorem claim_C8_witness :
    (t8.set_image envOk w0 "img.png").1 = .error .typeError ∧
    ((t8.set_image envOk w0 "img.png").2.1).image = t8.image :=
  claim_C8 envOk t8 w0 "img.png" rfl

end Hermes
